import Mathlib

/-!
Verification of the deterministic core of the AI Financial Coach app
(`app.py`): the derived-metrics computation, the nudge rule engine
`generate_nudges`, the priority classifier `classify_nudge_priority`,
and the feature-vector assembly.  Monetary amounts and ratios are
modelled as exact rationals (`ℚ`); Python's division by zero, which
raises, is modelled with `Except`.
-/

namespace Advisor

/-- The raw inputs collected by the sidebar and expense forms
(`app.py` lines 30-59).  The UI enforces bounds (e.g. income ≥ 1000)
but the data type itself carries arbitrary values so that behaviour
outside the UI range can be analysed. -/
structure RawInputs where
  income : ℚ
  age : ℚ
  dependents : ℚ
  occupation : String
  city_tier : String
  desired_savings : ℚ
  actual_savings : ℚ
  rent : ℚ
  loan_repay : ℚ
  insurance : ℚ
  groceries : ℚ
  transport : ℚ
  utilities : ℚ
  healthcare : ℚ
  education : ℚ
  eating_out : ℚ
  entertainment : ℚ
  misc : ℚ
deriving DecidableEq

/-- The `user_data` dictionary assembled at `app.py` lines 77-92: raw
fields, the nine category amounts, and the derived metrics.  The boolean
`Overspending_Alert` keeps its Python `bool` type. -/
structure UserData where
  Income : ℚ
  Age : ℚ
  Dependents : ℚ
  Desired_Savings : ℚ
  Actual_Savings : ℚ
  Total_Expenses : ℚ
  Disposable_Utilization : ℚ
  Discretionary_to_Income : ℚ
  Savings_vs_Desired : ℚ
  Rent_to_Income : ℚ
  Loan_to_Income : ℚ
  Overspending_Alert : Bool
  Savings_Rate : ℚ
  Rent : ℚ
  Loan_Repayment : ℚ
  Insurance : ℚ
  Groceries : ℚ
  Transport : ℚ
  Utilities : ℚ
  Healthcare : ℚ
  Education : ℚ
  Eating_Out : ℚ
  Entertainment : ℚ
  Miscellaneous : ℚ
deriving DecidableEq

/-- The derived-metrics block (`app.py` lines 62-92).  In Python every
ratio divides by `income`; when `income = 0` the first such division
(line 68) raises `ZeroDivisionError`, which we model as `Except.error`.
For any non-zero income the block is a total pure computation. -/
def assembleUserData (r : RawInputs) : Except String UserData :=
  let total_expenses := (r.rent + r.loan_repay + r.insurance)
    + (r.groceries + r.transport + r.utilities + r.healthcare + r.education)
    + (r.eating_out + r.entertainment + r.misc)
  let discretionary_spend := r.eating_out + r.entertainment + r.misc
  if r.income = 0 then
    Except.error "ZeroDivisionError: float division by zero"
  else
    let discretionary_to_income := discretionary_spend / r.income
    let disposable_utilization := total_expenses / r.income
    let savings_vs_desired := (r.actual_savings - r.desired_savings) / r.income
    let rent_to_income := r.rent / r.income
    let loan_to_income := r.loan_repay / r.income
    let overspending_alert := decide (disposable_utilization > 1.0)
    let savings_rate := r.actual_savings / r.income
    Except.ok
      { Income := r.income
        Age := r.age
        Dependents := r.dependents
        Desired_Savings := r.desired_savings
        Actual_Savings := r.actual_savings
        Total_Expenses := total_expenses
        Disposable_Utilization := disposable_utilization
        Discretionary_to_Income := discretionary_to_income
        Savings_vs_Desired := savings_vs_desired
        Rent_to_Income := rent_to_income
        Loan_to_Income := loan_to_income
        Overspending_Alert := overspending_alert
        Savings_Rate := savings_rate
        Rent := r.rent
        Loan_Repayment := r.loan_repay
        Insurance := r.insurance
        Groceries := r.groceries
        Transport := r.transport
        Utilities := r.utilities
        Healthcare := r.healthcare
        Education := r.education
        Eating_Out := r.eating_out
        Entertainment := r.entertainment
        Miscellaneous := r.misc }

/-! The nine advisory strings of `generate_nudges` (`app.py` 114-139). -/

def overspendHighMsg : String := "❌ You’ve overspent this month. Consider cutting expenses."

def overspendMedMsg : String := "⚠️ Close to overspending. Monitor your expenses."

def savingsGapHighMsg : String := "💰 You are significantly below your savings goal."

def savingsGapMedMsg : String := "💰 Below your savings target. Consider increasing savings."

def discretionaryHighMsg : String := "🛍️ Very high discretionary spending."

def discretionaryMedMsg : String := "🛍️ Consider reducing discretionary expenses."

def rentHighMsg : String := "🏠 Rent is too high relative to your income."

def rentMedMsg : String := "🏠 Consider lowering your housing costs."

def loanMsg : String := "📉 High loan repayment burden detected."

/-- The nudge rule engine (`app.py` lines 114-139): five independent
categories, each an if/elif ladder appending at most one message. -/
def generate_nudges (row : UserData) : List String :=
  let nudges : List String := []
  -- Overspending alert
  let nudges :=
    if row.Disposable_Utilization > 1.0 then nudges ++ [overspendHighMsg]
    else if row.Disposable_Utilization > 0.85 then nudges ++ [overspendMedMsg]
    else nudges
  -- Savings gap
  let nudges :=
    if row.Savings_vs_Desired < -0.1 then nudges ++ [savingsGapHighMsg]
    else if row.Savings_vs_Desired < -0.05 then nudges ++ [savingsGapMedMsg]
    else nudges
  -- High discretionary spending
  let nudges :=
    if row.Discretionary_to_Income > 0.35 then nudges ++ [discretionaryHighMsg]
    else if row.Discretionary_to_Income > 0.25 then nudges ++ [discretionaryMedMsg]
    else nudges
  -- Rent burden
  let nudges :=
    if row.Rent_to_Income > 0.4 then nudges ++ [rentHighMsg]
    else if row.Rent_to_Income > 0.3 then nudges ++ [rentMedMsg]
    else nudges
  -- Loan burden
  let nudges :=
    if row.Loan_to_Income > 0.3 then nudges ++ [loanMsg]
    else nudges
  nudges

/-- `startsWithList n l` is true when `n` is an initial segment of `l`. -/
def startsWithList : List Char → List Char → Bool
  | [], _ => true
  | _ :: _, [] => false
  | a :: as, b :: bs => a == b && startsWithList as bs

/-- `hasSubList n l` is true when `n` occurs contiguously inside `l`. -/
def hasSubList (needle : List Char) : List Char → Bool
  | [] => needle.isEmpty
  | b :: bs => startsWithList needle (b :: bs) || hasSubList needle bs

/-- Python's substring test `needle in hay` for strings. -/
def strContains (hay needle : String) : Bool :=
  hasSubList needle.data hay.data

/-- The priority classifier (`app.py` lines 141-151): substring matching
on the emitted message text, then a first-match decision ladder. -/
def classify_nudge_priority (nudges : List String) : String :=
  let high := nudges.any fun n =>
    strContains n "❌" || strContains n "💰 You are significantly" ||
      strContains n "🏠 Rent is too high"
  let medium := nudges.any fun n =>
    strContains n "⚠️" || strContains n "💰 Below your savings" ||
      strContains n "🛍️ Very high"
  if high = true then "High"
  else if medium = true ∨ 3 ≤ nudges.length then "Medium"
  else if nudges ≠ [] then "Low"
  else "None"

/-! Spec-side decomposition of the rule engine: one optional message per
category, in the fixed category evaluation order (spec §4.4). -/

/-- Overspending category: high tier `> 1.0`, medium tier `> 0.85`. -/
def overspendingNudge (row : UserData) : Option String :=
  if row.Disposable_Utilization > 1.0 then some overspendHighMsg
  else if row.Disposable_Utilization > 0.85 then some overspendMedMsg
  else none

/-- Savings-gap category: high tier `< -0.10`, medium tier `< -0.05`. -/
def savingsGapNudge (row : UserData) : Option String :=
  if row.Savings_vs_Desired < -0.1 then some savingsGapHighMsg
  else if row.Savings_vs_Desired < -0.05 then some savingsGapMedMsg
  else none

/-- Discretionary category: high tier `> 0.35`, medium tier `> 0.25`. -/
def discretionaryNudge (row : UserData) : Option String :=
  if row.Discretionary_to_Income > 0.35 then some discretionaryHighMsg
  else if row.Discretionary_to_Income > 0.25 then some discretionaryMedMsg
  else none

/-- Rent-burden category: high tier `> 0.4`, medium tier `> 0.3`. -/
def rentBurdenNudge (row : UserData) : Option String :=
  if row.Rent_to_Income > 0.4 then some rentHighMsg
  else if row.Rent_to_Income > 0.3 then some rentMedMsg
  else none

/-- Loan-burden category: single tier `> 0.3`. -/
def loanBurdenNudge (row : UserData) : Option String :=
  if row.Loan_to_Income > 0.3 then some loanMsg
  else none

/-- The priority classifier as worded in spec §4.5: structured presence
tests on the tagged tiers (here: the exact advisory strings), first
match wins, with the ≥ 3 count rule in the medium step. -/
def spec_classify (nudges : List String) : String :=
  if overspendHighMsg ∈ nudges ∨ savingsGapHighMsg ∈ nudges ∨ rentHighMsg ∈ nudges then
    "High"
  else if overspendMedMsg ∈ nudges ∨ savingsGapMedMsg ∈ nudges ∨
      discretionaryHighMsg ∈ nudges ∨ 3 ≤ nudges.length then
    "Medium"
  else if nudges ≠ [] then "Low"
  else "None"

/-! Feature-vector assembly (`app.py` lines 77-103).  The Python dict
`user_data` is modelled as an association list preserving insertion
order; `pd.DataFrame([user_data])[feature_cols]` is column selection in
schema order.  Values are rationals, with the Python boolean
`Overspending_Alert` carried as 0/1. -/

/-- The insertion-ordered entries of the `user_data` dict
(`app.py` lines 77-92). -/
def userDataEntries (u : UserData) : List (String × ℚ) :=
  [("Income", u.Income), ("Age", u.Age), ("Dependents", u.Dependents),
    ("Desired_Savings", u.Desired_Savings), ("Actual_Savings", u.Actual_Savings),
    ("Total_Expenses", u.Total_Expenses),
    ("Disposable_Utilization", u.Disposable_Utilization),
    ("Discretionary_to_Income", u.Discretionary_to_Income),
    ("Savings_vs_Desired", u.Savings_vs_Desired),
    ("Rent_to_Income", u.Rent_to_Income), ("Loan_to_Income", u.Loan_to_Income),
    ("Overspending_Alert", if u.Overspending_Alert then 1 else 0),
    ("Savings_Rate", u.Savings_Rate), ("Rent", u.Rent),
    ("Loan_Repayment", u.Loan_Repayment), ("Insurance", u.Insurance),
    ("Groceries", u.Groceries), ("Transport", u.Transport),
    ("Utilities", u.Utilities), ("Healthcare", u.Healthcare),
    ("Education", u.Education), ("Eating_Out", u.Eating_Out),
    ("Entertainment", u.Entertainment), ("Miscellaneous", u.Miscellaneous)]

/-- Python's `key in dict`. -/
def hasKey (m : List (String × ℚ)) (k : String) : Bool :=
  m.any fun p => p.1 == k

/-- Python's `dict[k] = v`: overwrite in place if the key exists,
otherwise append at the end (dicts preserve insertion order). -/
def dictSet (m : List (String × ℚ)) (k : String) (v : ℚ) : List (String × ℚ) :=
  if hasKey m k then m.map fun p => if p.1 == k then (k, v) else p
  else m ++ [(k, v)]

/-- `user_data` after the one-hot encoding loops (`app.py` lines 95-98). -/
def assembledData (u : UserData) (occupation city_tier : String) :
    List (String × ℚ) :=
  let d := userDataEntries u
  let d := ["Employed", "Self_Employed", "Student", "Retired"].foldl
    (fun acc v => dictSet acc ("Occupation_" ++ v) (if occupation = v then 1 else 0)) d
  let d := ["Tier_1", "Tier_2", "Tier_3"].foldl
    (fun acc v => dictSet acc ("City_Tier_" ++ v) (if city_tier = v then 1 else 0)) d
  d

/-- The defaulting loop (`app.py` lines 99-101): every schema column not
already a key of `user_data` is inserted with value 0. -/
def fillSchema (m : List (String × ℚ)) (cols : List String) : List (String × ℚ) :=
  cols.foldl (fun acc c => if hasKey acc c then acc else acc ++ [(c, 0)]) m

/-- Dictionary lookup (after `fillSchema` every schema key is present,
so the default branch is unreachable on the pipeline's inputs). -/
def lookupVal (m : List (String × ℚ)) (k : String) : ℚ :=
  ((m.find? fun p => p.1 == k).map Prod.snd).getD 0

/-- `pd.DataFrame([user_data])[feature_cols]` (`app.py` line 103): the
single-row frame, as the schema-ordered list of column-value pairs. -/
def input_df (u : UserData) (occupation city_tier : String)
    (feature_cols : List String) : List (String × ℚ) :=
  let d := fillSchema (assembledData u occupation city_tier) feature_cols
  feature_cols.map fun c => (c, lookupVal d c)

/-! Concrete inputs used by counterexamples and witnesses. -/

/-- A raw-input record matching the UI defaults (`app.py` lines 30-59)
with all expense fields zero. -/
def baseRaw : RawInputs :=
  { income := 5000, age := 30, dependents := 1, occupation := "Employed",
    city_tier := "Tier_1", desired_savings := 1000, actual_savings := 2000,
    rent := 0, loan_repay := 0, insurance := 0, groceries := 0, transport := 0,
    utilities := 0, healthcare := 0, education := 0, eating_out := 0,
    entertainment := 0, misc := 0 }

/-- The user-data record derived from `baseRaw`: every ratio zero except
`Savings_vs_Desired = 1/5` and `Savings_Rate = 2/5`. -/
def baseRow : UserData :=
  { Income := 5000, Age := 30, Dependents := 1, Desired_Savings := 1000,
    Actual_Savings := 2000, Total_Expenses := 0, Disposable_Utilization := 0,
    Discretionary_to_Income := 0, Savings_vs_Desired := 1/5, Rent_to_Income := 0,
    Loan_to_Income := 0, Overspending_Alert := false, Savings_Rate := 2/5,
    Rent := 0, Loan_Repayment := 0, Insurance := 0, Groceries := 0,
    Transport := 0, Utilities := 0, Healthcare := 0, Education := 0,
    Eating_Out := 0, Entertainment := 0, Miscellaneous := 0 }

/-- Metrics where only the medium-tier discretionary rule fires
(discretionary ratio 0.30, all other ratios benign). -/
def c1ex : UserData := { baseRow with Discretionary_to_Income := 0.3 }

/-- Raw inputs with strictly negative income. -/
def c3ex : RawInputs := { baseRaw with income := -1000 }

/-- Raw inputs with rent 6000 against income 5000, so total expenses
exceed income. -/
def r5in : RawInputs := { baseRaw with rent := 6000 }

/-- The derived metrics of `r5in`, computed by hand:
`Disposable_Utilization = 6000/5000 = 6/5 > 1`. -/
def u5 : UserData :=
  { Income := 5000, Age := 30, Dependents := 1, Desired_Savings := 1000,
    Actual_Savings := 2000, Total_Expenses := 6000, Disposable_Utilization := 6/5,
    Discretionary_to_Income := 0, Savings_vs_Desired := 1/5, Rent_to_Income := 6/5,
    Loan_to_Income := 0, Overspending_Alert := true, Savings_Rate := 2/5,
    Rent := 6000, Loan_Repayment := 0, Insurance := 0, Groceries := 0,
    Transport := 0, Utilities := 0, Healthcare := 0, Education := 0,
    Eating_Out := 0, Entertainment := 0, Miscellaneous := 0 }

/-- Metrics where only the high-tier rent rule fires. -/
def c4ex : UserData := { baseRow with Rent_to_Income := 0.5 }

/-- Metrics where only the loan-burden rule fires. -/
def c8ex : UserData := { baseRow with Loan_to_Income := 0.5 }

/-- A record agreeing with `baseRow` on the five rule-engine ratios but
differing on income, the alert flag, savings rate and a raw amount. -/
def c10ex : UserData :=
  { baseRow with
      Income := 1
      Overspending_Alert := true
      Savings_Rate := 0
      Rent := 500 }

set_option maxHeartbeats 1000000 in
/-- The rule engine is the concatenation of the five per-category
optional messages, in category order. -/
lemma generate_nudges_eq (row : UserData) :
    generate_nudges row =
      (overspendingNudge row).toList ++ (savingsGapNudge row).toList ++
        (discretionaryNudge row).toList ++ (rentBurdenNudge row).toList ++
        (loanBurdenNudge row).toList := by
  unfold generate_nudges overspendingNudge savingsGapNudge discretionaryNudge
    rentBurdenNudge loanBurdenNudge
  split_ifs <;> rfl

/-- Every value the overspending category can take. -/
lemma overspendingNudge_cases (row : UserData) :
    overspendingNudge row = none ∨ overspendingNudge row = some overspendHighMsg ∨
      overspendingNudge row = some overspendMedMsg := by
  unfold overspendingNudge; split_ifs <;> simp

/-- Every value the savings-gap category can take. -/
lemma savingsGapNudge_cases (row : UserData) :
    savingsGapNudge row = none ∨ savingsGapNudge row = some savingsGapHighMsg ∨
      savingsGapNudge row = some savingsGapMedMsg := by
  unfold savingsGapNudge; split_ifs <;> simp

/-- Every value the discretionary category can take. -/
lemma discretionaryNudge_cases (row : UserData) :
    discretionaryNudge row = none ∨ discretionaryNudge row = some discretionaryHighMsg ∨
      discretionaryNudge row = some discretionaryMedMsg := by
  unfold discretionaryNudge; split_ifs <;> simp

/-- Every value the rent-burden category can take. -/
lemma rentBurdenNudge_cases (row : UserData) :
    rentBurdenNudge row = none ∨ rentBurdenNudge row = some rentHighMsg ∨
      rentBurdenNudge row = some rentMedMsg := by
  unfold rentBurdenNudge; split_ifs <;> simp

/-- Every value the loan-burden category can take. -/
lemma loanBurdenNudge_cases (row : UserData) :
    loanBurdenNudge row = none ∨ loanBurdenNudge row = some loanMsg := by
  unfold loanBurdenNudge; split_ifs <;> simp

/-- A list on which `any` returns true is non-empty. -/
lemma any_true_ne_nil {ns : List String} {f : String → Bool}
    (h : ns.any f = true) : ns ≠ [] := by
  rintro rfl; simp at h

/-- On a non-empty list the classifier returns one of the three
positive levels. -/
lemma classify_mem (ns : List String) (h : ns ≠ []) :
    classify_nudge_priority ns = "Low" ∨ classify_nudge_priority ns = "Medium" ∨
      classify_nudge_priority ns = "High" := by
  simp only [classify_nudge_priority]
  split_ifs with h1 h2
  · exact Or.inr (Or.inr rfl)
  · exact Or.inr (Or.inl rfl)
  · exact Or.inl rfl

/-- The classifier returns "None" exactly on the empty list. -/
lemma classify_none_iff (ns : List String) :
    classify_nudge_priority ns = "None" ↔ ns = [] := by
  constructor
  · intro h
    by_contra hne
    rcases classify_mem ns hne with h' | h' | h' <;>
      · rw [h] at h'; exact absurd h' (by decide)
  · rintro rfl; rfl

/-- `filterMap id` over five options is the concatenation of their
`toList`s. -/
lemma filterMap_id_five (a b c d e : Option String) :
    List.filterMap id [a, b, c, d, e] =
      a.toList ++ b.toList ++ c.toList ++ d.toList ++ e.toList := by
  cases a <;> cases b <;> cases c <;> cases d <;> cases e <;> rfl

/-- An option's `toList` has at most one element. -/
lemma toList_length_le (o : Option String) : o.toList.length ≤ 1 := by
  cases o <;> simp

/-- `hasKey` distributes over append as a boolean or. -/
lemma hasKey_append (m l : List (String × ℚ)) (k : String) :
    hasKey (m ++ l) k = (hasKey m k || hasKey l k) := by
  simp [hasKey]

/-- Looking a key up in an appended dictionary finds the left entry
first. -/
lemma lookupVal_append (m l : List (String × ℚ)) (k : String) :
    lookupVal (m ++ l) k = if hasKey m k then lookupVal m k else lookupVal l k := by
  induction m with
  | nil => simp [hasKey, lookupVal]
  | cons p t ih =>
    by_cases hp : (p.1 == k) = true
    · simp [lookupVal, hasKey, List.find?_cons_of_pos, hp]
    · have hp' : (p.1 == k) = false := by simpa using hp
      simp only [List.cons_append, lookupVal, List.find?_cons_of_neg, hp',
        Bool.not_eq_true, hasKey, List.any_cons, Bool.false_or] at ih ⊢
      exact ih

/-- Unfolding `fillSchema` one column at a time. -/
lemma fillSchema_cons (m : List (String × ℚ)) (c : String) (cs : List String) :
    fillSchema m (c :: cs) =
      fillSchema (if hasKey m c then m else m ++ [(c, 0)]) cs := by
  by_cases h : hasKey m c <;> simp [fillSchema, h]

/-- Filling never changes the value of a key that is already present. -/
lemma lookupVal_fillSchema_of_hasKey (cols : List String) (m : List (String × ℚ))
    (k : String) (h : hasKey m k = true) :
    lookupVal (fillSchema m cols) k = lookupVal m k := by
  induction cols generalizing m with
  | nil => rfl
  | cons c cs ih =>
    rw [fillSchema_cons]
    by_cases hc : hasKey m c = true
    · rw [if_pos hc]; exact ih m h
    · rw [if_neg (by simp [hc])]
      have h2 : hasKey (m ++ [(c, 0)]) k = true := by
        rw [hasKey_append, h, Bool.true_or]
      rw [ih _ h2, lookupVal_append, if_pos h]

/-- A schema column absent from the dictionary is filled with value 0. -/
lemma lookupVal_fillSchema_of_new (cols : List String) (m : List (String × ℚ))
    (k : String) (h : hasKey m k = false) (hk : k ∈ cols) :
    lookupVal (fillSchema m cols) k = 0 := by
  induction cols generalizing m with
  | nil => cases hk
  | cons c cs ih =>
    rw [fillSchema_cons]
    by_cases hck : c = k
    · subst hck
      rw [if_neg (by simp [h])]
      have h2 : hasKey (m ++ [(c, 0)]) c = true := by simp [hasKey_append, hasKey]
      rw [lookupVal_fillSchema_of_hasKey cs _ _ h2, lookupVal_append,
        if_neg (by simp [h])]
      simp [lookupVal]
    · have hk' : k ∈ cs := by
        rcases List.mem_cons.mp hk with h3 | h3
        · exact absurd h3.symm hck
        · exact h3
      by_cases hc : hasKey m c = true
      · rw [if_pos hc]; exact ih _ h hk'
      · rw [if_neg (by simp [hc])]
        have h2 : hasKey (m ++ [(c, 0)]) k = false := by
          rw [hasKey_append, h, Bool.false_or]
          simp [hasKey, hck]
        exact ih _ h2 hk'

/-- The overspending category is silent when utilization is at most 0.85. -/
lemma overspendingNudge_none {u : UserData}
    (h : u.Disposable_Utilization ≤ 0.85) : overspendingNudge u = none := by
  unfold overspendingNudge
  rw [if_neg (by push_neg; linarith), if_neg (by push_neg; linarith)]

/-- The savings-gap category is silent when the gap is at least -0.05. -/
lemma savingsGapNudge_none {u : UserData}
    (h : (-0.05 : ℚ) ≤ u.Savings_vs_Desired) : savingsGapNudge u = none := by
  unfold savingsGapNudge
  rw [if_neg (by push_neg; linarith), if_neg (by push_neg; linarith)]

/-- The discretionary category is silent when the ratio is at most 0.25. -/
lemma discretionaryNudge_none {u : UserData}
    (h : u.Discretionary_to_Income ≤ 0.25) : discretionaryNudge u = none := by
  unfold discretionaryNudge
  rw [if_neg (by push_neg; linarith), if_neg (by push_neg; linarith)]

/-- Strictly between 0.25 and 0.35 the discretionary category emits its
medium-tier message. -/
lemma discretionaryNudge_med {u : UserData}
    (h1 : (0.25 : ℚ) < u.Discretionary_to_Income)
    (h2 : u.Discretionary_to_Income < 0.35) :
    discretionaryNudge u = some discretionaryMedMsg := by
  unfold discretionaryNudge
  rw [if_neg (by push_neg; linarith), if_pos h1]

/-- The rent category is silent when the ratio is at most 0.3. -/
lemma rentBurdenNudge_none {u : UserData}
    (h : u.Rent_to_Income ≤ 0.3) : rentBurdenNudge u = none := by
  unfold rentBurdenNudge
  rw [if_neg (by push_neg; linarith), if_neg (by push_neg; linarith)]

/-- The loan category is silent when the ratio is at most 0.3. -/
lemma loanBurdenNudge_none {u : UserData}
    (h : u.Loan_to_Income ≤ 0.3) : loanBurdenNudge u = none := by
  unfold loanBurdenNudge
  rw [if_neg (by push_neg; linarith)]

/-- Above 0.3 the loan category emits its single message. -/
lemma loanBurdenNudge_some {u : UserData}
    (h : u.Loan_to_Income > 0.3) : loanBurdenNudge u = some loanMsg := by
  unfold loanBurdenNudge
  rw [if_pos h]

/-- The metrics of `r5in`: income 5000, rent 6000, everything else from
the defaults, worked out to exact rationals. -/
lemma assemble_r5 : assembleUserData r5in = Except.ok u5 := by
  simp only [assembleUserData]
  rw [if_neg (by norm_num [r5in, baseRaw])]
  norm_num [r5in, baseRaw, u5, UserData.mk.injEq]

/-! The claims. -/

/-- C1, as stated by the spec, is false on the code: with the
discretionary ratio 0.30 (strictly between 0.25 and 0.35) and no other
rule firing, the pipeline returns priority "Low", not "Medium" — the
medium-tier discretionary message contains none of the substrings the
classifier's medium test looks for. -/
theorem C1_counterexample :
    (0.25 : ℚ) < c1ex.Discretionary_to_Income ∧
      c1ex.Discretionary_to_Income < 0.35 ∧
      generate_nudges c1ex = [discretionaryMedMsg] ∧
      classify_nudge_priority (generate_nudges c1ex) = "Low" ∧
      classify_nudge_priority (generate_nudges c1ex) ≠ "Medium" := by
  have hgen : generate_nudges c1ex = [discretionaryMedMsg] := by
    rw [generate_nudges_eq]
    norm_num [c1ex, baseRow, overspendingNudge, savingsGapNudge, discretionaryNudge,
      rentBurdenNudge, loanBurdenNudge]
  refine ⟨by norm_num [c1ex, baseRow], by norm_num [c1ex, baseRow], hgen, ?_, ?_⟩ <;>
    rw [hgen] <;> decide

/-- C1 (amended): when the discretionary ratio lies strictly between
0.25 and 0.35 and no other rule category fires, the pipeline emits only
the medium-tier discretionary nudge and classifies it "Low" (only
`Discretionary-high` counts toward "Medium"). -/
theorem C1_discretionary_medium_only_low (u : UserData)
    (hd1 : (0.25 : ℚ) < u.Discretionary_to_Income)
    (hd2 : u.Discretionary_to_Income < 0.35)
    (ho : u.Disposable_Utilization ≤ 0.85)
    (hs : (-0.05 : ℚ) ≤ u.Savings_vs_Desired)
    (hr : u.Rent_to_Income ≤ 0.3)
    (hl : u.Loan_to_Income ≤ 0.3) :
    generate_nudges u = [discretionaryMedMsg] ∧
      classify_nudge_priority (generate_nudges u) = "Low" := by
  have hgen : generate_nudges u = [discretionaryMedMsg] := by
    rw [generate_nudges_eq, overspendingNudge_none ho, savingsGapNudge_none hs,
      discretionaryNudge_med hd1 hd2, rentBurdenNudge_none hr, loanBurdenNudge_none hl]
    rfl
  exact ⟨hgen, by rw [hgen]; decide⟩

/-- C1 (witness): the amended claim at the concrete metrics `c1ex`. -/
theorem C1_witness :
    generate_nudges c1ex = [discretionaryMedMsg] ∧
      classify_nudge_priority (generate_nudges c1ex) = "Low" :=
  C1_discretionary_medium_only_low c1ex (by norm_num [c1ex, baseRow])
    (by norm_num [c1ex, baseRow]) (by norm_num [c1ex, baseRow])
    (by norm_num [c1ex, baseRow]) (by norm_num [c1ex, baseRow])
    (by norm_num [c1ex, baseRow])

/-- C2: on every list the rule engine produces, the classifier follows
the spec's strict first-match decision sequence — High on a high-tier
nudge; else Medium on a medium-tier nudge (Overspending-medium,
SavingsGap-medium or Discretionary-high) or a count of at least 3; else
Low on a non-empty list; else None. -/
theorem C2_classifier_decision_sequence (u : UserData) :
    classify_nudge_priority (generate_nudges u) = spec_classify (generate_nudges u) := by
  rcases overspendingNudge_cases u with h1 | h1 | h1 <;>
    rcases savingsGapNudge_cases u with h2 | h2 | h2 <;>
    rcases discretionaryNudge_cases u with h3 | h3 | h3 <;>
    rcases rentBurdenNudge_cases u with h4 | h4 | h4 <;>
    rcases loanBurdenNudge_cases u with h5 | h5 <;>
    rw [generate_nudges_eq, h1, h2, h3, h4, h5] <;> decide

/-- C3, as stated by the spec, is false on the code: at income -1000
(which is ≤ 0) the derived-metrics block succeeds — it neither raises
nor produces any `DomainError "invalid income"`. -/
theorem C3_counterexample :
    c3ex.income ≤ 0 ∧ (∃ u, assembleUserData c3ex = Except.ok u) ∧
      ∀ e : String, assembleUserData c3ex ≠ Except.error e := by
  have herr : ∀ e : String, assembleUserData c3ex ≠ Except.error e := by
    intro e he
    simp only [assembleUserData] at he
    rw [if_neg (by norm_num [c3ex, baseRaw])] at he
    simp at he
  refine ⟨by norm_num [c3ex, baseRaw], ?_, herr⟩
  cases hE : assembleUserData c3ex with
  | error e => exact absurd hE (herr e)
  | ok u => exact ⟨u, rfl⟩

/-- C3 (amended): the derived-metrics block performs no income
validation.  It fails — with Python's `ZeroDivisionError`, not a
`DomainError "invalid income"` — exactly when income = 0, and for every
other income (negative included) it is a total pure computation. -/
theorem C3_no_income_validation (r : RawInputs) :
    (r.income = 0 →
      assembleUserData r = Except.error "ZeroDivisionError: float division by zero") ∧
    (r.income ≠ 0 → ∃ u, assembleUserData r = Except.ok u) := by
  constructor
  · intro h
    simp only [assembleUserData]
    rw [if_pos h]
  · intro h
    simp only [assembleUserData]
    rw [if_neg h]
    exact ⟨_, rfl⟩

/-- C3 (witness): income 0 raises, the default income 5000 succeeds. -/
theorem C3_witness :
    assembleUserData { baseRaw with income := 0 } =
        Except.error "ZeroDivisionError: float division by zero" ∧
      ∃ u, assembleUserData baseRaw = Except.ok u :=
  ⟨(C3_no_income_validation { baseRaw with income := 0 }).1 rfl,
    (C3_no_income_validation baseRaw).2 (by norm_num [baseRaw])⟩

/-- C4: the pipeline's priority is "None" exactly when the nudge list is
empty, and every non-empty list is classified "Low", "Medium" or
"High". -/
theorem C4_priority_none_iff_empty (u : UserData) :
    (classify_nudge_priority (generate_nudges u) = "None" ↔ generate_nudges u = []) ∧
    (generate_nudges u ≠ [] →
      classify_nudge_priority (generate_nudges u) = "Low" ∨
      classify_nudge_priority (generate_nudges u) = "Medium" ∨
      classify_nudge_priority (generate_nudges u) = "High") :=
  ⟨classify_none_iff _, classify_mem _⟩

/-- C4 (witness): at `c4ex` the nudge list is non-empty and the
classification is one of the three positive levels. -/
theorem C4_witness :
    classify_nudge_priority (generate_nudges c4ex) = "Low" ∨
      classify_nudge_priority (generate_nudges c4ex) = "Medium" ∨
      classify_nudge_priority (generate_nudges c4ex) = "High" := by
  have hgen : generate_nudges c4ex = [rentHighMsg] := by
    rw [generate_nudges_eq]
    norm_num [c4ex, baseRow, overspendingNudge, savingsGapNudge, discretionaryNudge,
      rentBurdenNudge, loanBurdenNudge]
  exact (C4_priority_none_iff_empty c4ex).2 (by rw [hgen]; simp)

/-- C5: for positive income, the derived `Overspending_Alert` flag is
true exactly when `Total_Expenses / income` exceeds 1.0, and
`Disposable_Utilization` is that quotient. -/
theorem C5_overspending_alert_iff (r : RawInputs) (h : 0 < r.income) (u : UserData)
    (hu : assembleUserData r = Except.ok u) :
    (u.Overspending_Alert = true ↔ u.Total_Expenses / r.income > 1.0) ∧
      u.Disposable_Utilization = u.Total_Expenses / r.income := by
  have hne : r.income ≠ 0 := ne_of_gt h
  simp only [assembleUserData] at hu
  rw [if_neg hne] at hu
  injection hu with hu2
  subst hu2
  constructor
  · simp [decide_eq_true_eq]
  · rfl

/-- C5 (witness): at `r5in` (rent 6000 on income 5000) the alert is on
and utilization is 6/5. -/
theorem C5_witness :
    (u5.Overspending_Alert = true ↔ u5.Total_Expenses / r5in.income > 1.0) ∧
      u5.Disposable_Utilization = u5.Total_Expenses / r5in.income :=
  C5_overspending_alert_iff r5in (by norm_num [r5in, baseRaw]) u5 assemble_r5

/-- C6: for positive income, `Total_Expenses` is exactly the sum of the
eleven category amounts (fixed + essential + discretionary). -/
theorem C6_total_expenses_sum (r : RawInputs) (h : 0 < r.income) (u : UserData)
    (hu : assembleUserData r = Except.ok u) :
    u.Total_Expenses = r.rent + r.loan_repay + r.insurance + r.groceries +
      r.transport + r.utilities + r.healthcare + r.education + r.eating_out +
      r.entertainment + r.misc := by
  have hne : r.income ≠ 0 := ne_of_gt h
  simp only [assembleUserData] at hu
  rw [if_neg hne] at hu
  injection hu with hu2
  subst hu2
  ring

/-- C6 (witness): the sum identity at the concrete record `r5in`. -/
theorem C6_witness :
    u5.Total_Expenses = r5in.rent + r5in.loan_repay + r5in.insurance +
      r5in.groceries + r5in.transport + r5in.utilities + r5in.healthcare +
      r5in.education + r5in.eating_out + r5in.entertainment + r5in.misc :=
  C6_total_expenses_sum r5in (by norm_num [r5in, baseRaw]) u5 assemble_r5

/-- C7: for every input and non-empty schema, the assembled frame's key
sequence equals the schema exactly, its length equals the schema length,
and every schema field that is not a key of the assembled `user_data`
dict carries the value 0. -/
theorem C7_feature_vector_schema (u : UserData) (occupation city_tier : String)
    (cols : List String) (hne : cols ≠ []) :
    (input_df u occupation city_tier cols).map Prod.fst = cols ∧
    (input_df u occupation city_tier cols).length = cols.length ∧
    ∀ c ∈ cols, hasKey (assembledData u occupation city_tier) c = false →
      (c, (0 : ℚ)) ∈ input_df u occupation city_tier cols := by
  refine ⟨?_, ?_, ?_⟩
  · simp only [input_df, List.map_map]
    have hid : (Prod.fst ∘ fun c =>
        (c, lookupVal (fillSchema (assembledData u occupation city_tier) cols) c)) = id := rfl
    rw [hid, List.map_id]
  · simp [input_df]
  · intro c hc h0
    have hl : lookupVal (fillSchema (assembledData u occupation city_tier) cols) c = 0 :=
      lookupVal_fillSchema_of_new cols _ c h0 hc
    simp only [input_df, List.mem_map]
    exact ⟨c, hc, by rw [hl]⟩

/-- C7 (witness): a two-column schema with one unknown feature: the key
order is the schema and the unknown feature gets value 0. -/
theorem C7_witness :
    (input_df baseRow "Employed" "Tier_1" ["Rent", "Extra_Feature"]).map Prod.fst =
        ["Rent", "Extra_Feature"] ∧
      ("Extra_Feature", (0 : ℚ)) ∈
        input_df baseRow "Employed" "Tier_1" ["Rent", "Extra_Feature"] :=
  ⟨(C7_feature_vector_schema baseRow "Employed" "Tier_1" _ (by decide)).1,
    (C7_feature_vector_schema baseRow "Employed" "Tier_1" _ (by decide)).2.2
      "Extra_Feature" (by decide) (by decide)⟩

/-- C8: when the loan-burden rule is the only rule that fires, the
single-nudge list is classified "Low": the loan nudge on its own never
directly yields "High" or "Medium". -/
theorem C8_loan_only_low (u : UserData)
    (hl : u.Loan_to_Income > 0.3)
    (ho : u.Disposable_Utilization ≤ 0.85)
    (hs : (-0.05 : ℚ) ≤ u.Savings_vs_Desired)
    (hd : u.Discretionary_to_Income ≤ 0.25)
    (hr : u.Rent_to_Income ≤ 0.3) :
    generate_nudges u = [loanMsg] ∧
      classify_nudge_priority (generate_nudges u) = "Low" := by
  have hgen : generate_nudges u = [loanMsg] := by
    rw [generate_nudges_eq, overspendingNudge_none ho, savingsGapNudge_none hs,
      discretionaryNudge_none hd, rentBurdenNudge_none hr, loanBurdenNudge_some hl]
    rfl
  exact ⟨hgen, by rw [hgen]; decide⟩

/-- C8 (witness): the loan-only scenario at the concrete metrics `c8ex`. -/
theorem C8_witness :
    generate_nudges c8ex = [loanMsg] ∧
      classify_nudge_priority (generate_nudges c8ex) = "Low" :=
  C8_loan_only_low c8ex (by norm_num [c8ex, baseRow]) (by norm_num [c8ex, baseRow])
    (by norm_num [c8ex, baseRow]) (by norm_num [c8ex, baseRow])
    (by norm_num [c8ex, baseRow])

/-- C9: the rule engine emits at most one message per category, in the
fixed category order Overspending, SavingsGap, Discretionary,
RentBurden, LoanBurden, and the list has length at most 5. -/
theorem C9_one_message_per_category (u : UserData) :
    generate_nudges u =
      List.filterMap id [overspendingNudge u, savingsGapNudge u, discretionaryNudge u,
        rentBurdenNudge u, loanBurdenNudge u] ∧
    (generate_nudges u).length ≤ 5 := by
  constructor
  · rw [generate_nudges_eq, filterMap_id_five]
  · rw [generate_nudges_eq]
    have h1 := toList_length_le (overspendingNudge u)
    have h2 := toList_length_le (savingsGapNudge u)
    have h3 := toList_length_le (discretionaryNudge u)
    have h4 := toList_length_le (rentBurdenNudge u)
    have h5 := toList_length_le (loanBurdenNudge u)
    simp only [List.length_append]
    omega

/-- C10: the nudge list depends only on the five ratio fields — two
records agreeing on them produce identical lists, whatever their other
fields. -/
theorem C10_depends_only_on_five_ratios (u v : UserData)
    (h1 : u.Disposable_Utilization = v.Disposable_Utilization)
    (h2 : u.Savings_vs_Desired = v.Savings_vs_Desired)
    (h3 : u.Discretionary_to_Income = v.Discretionary_to_Income)
    (h4 : u.Rent_to_Income = v.Rent_to_Income)
    (h5 : u.Loan_to_Income = v.Loan_to_Income) :
    generate_nudges u = generate_nudges v := by
  unfold generate_nudges
  rw [h1, h2, h3, h4, h5]

/-- C10 (witness): `baseRow` and `c10ex` agree on the five ratios but
differ on income, alert flag, savings rate and rent — same nudges. -/
theorem C10_witness :
    generate_nudges baseRow = generate_nudges c10ex ∧
      baseRow.Income ≠ c10ex.Income ∧
      baseRow.Overspending_Alert ≠ c10ex.Overspending_Alert ∧
      baseRow.Savings_Rate ≠ c10ex.Savings_Rate ∧
      baseRow.Rent ≠ c10ex.Rent := by
  refine ⟨C10_depends_only_on_five_ratios baseRow c10ex rfl rfl rfl rfl rfl,
    ?_, ?_, ?_, ?_⟩ <;> norm_num [baseRow, c10ex]

end Advisor
